import Mathlib

/-
Verification of the MQTT 3.1.1 client engine in
src/libraries/ArduinoMQTT-master/GenericMQTTClient.h (template class
GenericMQTTClient), compiled with MQTTCLIENT_QOS1 and MQTTCLIENT_QOS2 both
enabled (the configuration the specification describes; note that the inner
publish uses an `elif`, so with QOS1 enabled the QOS2 wait branch is inactive).

The transport (`Network`) and the clock (`Timer`) are external collaborators.
The transport is modelled as an injected trace of read results plus a log of
written packets; the outbound direction always accepts all bytes.  A timer is
modelled as the number of future `expired()` observations that still answer
`false`; each call to `expired()` consumes one unit.  `left_ms()` does not
observe the timer (read outcomes are fully determined by the injected trace).

The packet codec (utility/MQTTPacket.h) and MQTTCommon.h are part of the
library but are not present under src/; the serializers, deserializers,
return-code constants and the packet-id allocator are modelled from the
specification (sections 4.1, 4.3, 6) and are marked as such below.
-/

namespace MQTTC

/-- Modelled from the spec: return code, 0 = success (missing MQTTCommon.h). -/
def SUCCESS : Int := 0

/-- Modelled from the spec: FAILURE is negative (missing MQTTCommon.h); the
source doc comment on readPacket says it returns the packet type "or -1 if
none", so FAILURE = -1. -/
def FAILURE : Int := -1

/-- Modelled from the spec: BUFFER_OVERFLOW is negative and distinct from
FAILURE (missing MQTTCommon.h). -/
def BUFFER_OVERFLOW : Int := -2

/-- MQTT 3.1.1 control packet type CONNACK (spec section 6: type in the high
nibble of the control byte). -/
def CONNACK : Int := 2

/-- MQTT 3.1.1 control packet type PUBLISH. -/
def PUBLISH : Int := 3

/-- MQTT 3.1.1 control packet type PUBACK. -/
def PUBACK : Int := 4

/-- MQTT 3.1.1 control packet type PUBREC. -/
def PUBREC : Int := 5

/-- MQTT 3.1.1 control packet type PUBREL. -/
def PUBREL : Int := 6

/-- MQTT 3.1.1 control packet type PUBCOMP. -/
def PUBCOMP : Int := 7

/-- MQTT 3.1.1 control packet type SUBACK. -/
def SUBACK : Int := 9

/-- MQTT 3.1.1 control packet type PINGRESP. -/
def PINGRESP : Int := 13

/-- One injected outcome for a transport `read` call: a successful read
returning the given bytes, a negative error code, or a timeout (0 bytes). -/
inductive NetEv where
  | bytes (bs : List Nat)
  | rerr (code : Int)
  | rtimeout
deriving DecidableEq

/-- A message delivery observed by a handler: the slot that fired (none for
the default handler), the topic, and the message fields. -/
structure Delivery where
  handlerSlot : Option Nat
  topic : List Nat
  msgid : Nat
  qos : Nat
  payload : List Nat
deriving DecidableEq

/-- The world outside the client: the pending inbound read outcomes, the log
of packets written to the transport (each as its byte list, oldest first),
and the log of handler deliveries. -/
structure World where
  net : List NetEv
  sent : List (List Nat)
  delivered : List Delivery
deriving DecidableEq

/-- A deserialized PUBLISH (the MQTTPacket fields used by the client). -/
structure PubMsg where
  dup : Nat
  qos : Nat
  retained : Bool
  id : Nat
  payload : List Nat
deriving DecidableEq

/-- The client state: the fields of GenericMQTTClient (lines 148-190).
Buffers are byte lists; message handlers are slots holding a topic filter
(the attached callback is observed through the delivery log); the countdown
timers last_sent and last_received use the fuel model. -/
structure CState where
  command_timeout_ms : Nat
  sendbuf : List Nat
  readbuf : List Nat
  last_sent : Nat
  last_received : Nat
  keepAliveInterval : Nat
  ping_outstanding : Bool
  cleansession : Bool
  packetid : Nat
  messageHandlers : List (Option (List Char))
  defaultAttached : Bool
  isconnected : Bool
  pubbuf : List Nat
  inflightLen : Nat
  inflightMsgid : Nat
  inflightQoS : Nat
  pubrel : Bool
  incomingQoS2messages : List Nat
deriving DecidableEq

/-- One observation of a countdown timer: expired when the fuel is exhausted,
otherwise not yet expired with one unit consumed. -/
def timerExpired : Nat → Bool × Nat
  | 0 => (true, 0)
  | n + 1 => (false, n)

/-- One transport read: consumes the next injected outcome and returns
(return code, bytes, remaining trace).  An exhausted trace reads as a
timeout (0 bytes). -/
def netRead : List NetEv → Int × List Nat × List NetEv
  | [] => (0, [], [])
  | NetEv.bytes bs :: rest => ((bs.length : Int), bs, rest)
  | NetEv.rerr c :: rest => (c, [], rest)
  | NetEv.rtimeout :: rest => (0, [], rest)

/-- Modelled from the spec: the Remaining Length encoding (7 bits per byte,
continuation bit 128), least significant group first (missing
utility/MQTTPacket.h, MQTTPacket_encode).  The fuel argument only bounds the
recursion structurally; 4 groups cover the whole representable range
[0, 268435455]. -/
def encodeRemLenF : Nat → Nat → List Nat
  | 0, x => [x]
  | fuel + 1, x => if x < 128 then [x] else (x % 128 + 128) :: encodeRemLenF fuel (x / 128)

/-- The Remaining Length encoder entered with enough fuel for 4 groups. -/
def encodeRemLen (x : Nat) : List Nat :=
  encodeRemLenF 3 x

/-- Modelled from the spec: decode a Remaining Length field from a byte list
(at most 4 bytes), returning the value and the rest (missing
utility/MQTTPacket.h; used by the deserializers). -/
def parseRemLenAux (len value mult : Nat) : List Nat → Option (Nat × List Nat)
  | [] => none
  | c :: rest =>
    if len + 1 > 4 then none
    else
      let value := value + c % 128 * mult
      if c % 256 / 128 = 1 then parseRemLenAux (len + 1) value (mult * 128) rest
      else some (value, rest)

/-- Embeds GenericMQTTClient::decodePacket (lines 283-306): reads the
Remaining Length from the transport one byte at a time; after 4 continuation
bytes no fifth byte is read.  The budget argument is 4 - len, so the source's
test (++len > MAX_NO_OF_REMAINING_LENGTH_BYTES) is the budget reaching 0.
Returns (len as returned by the C function, the decoded value so far,
remaining trace). -/
def decodePacketAux : Nat → Nat → Nat → Nat → List NetEv → Nat × Nat × List NetEv
  | 0, len, value, _, net => (len + 1, value, net)
  | budget + 1, len, value, mult, net =>
    match netRead net with
    | (rc, bs, net') =>
      if rc ≠ 1 then (len + 1, value, net')
      else
        let c := bs.headD 0
        let value := value + c % 128 * mult
        if c % 256 / 128 = 1 then decodePacketAux budget (len + 1) value (mult * 128) net'
        else (len + 1, value, net')

/-- GenericMQTTClient::decodePacket, entered as the source calls it. -/
def decodePacket (net : List NetEv) : Nat × Nat × List NetEv :=
  decodePacketAux 4 0 0 1 net

/-- Modelled from the spec: serializer for the 4-byte ack packets (PUBACK,
PUBREC, PUBREL, PUBCOMP): control byte with the type in the high nibble
(PUBREL carries flag 2), Remaining Length 2, packet id big-endian (missing
utility/MQTTPacket.h, MQTTSerialize_ack).  Returns (length or -1 on
overflow, bytes). -/
def MQTTSerialize_ack (bufsize : Nat) (packettype : Int) (dup : Nat)
    (packetid : Nat) : Int × List Nat :=
  let flags := if packettype = PUBREL then 2 else 0
  let bytes := [packettype.toNat * 16 + dup * 8 + flags, 2,
                packetid / 256, packetid % 256]
  if bytes.length ≤ bufsize then ((bytes.length : Int), bytes) else (-1, [])

/-- Modelled from the spec: PINGREQ serializer (missing
utility/MQTTPacket.h, MQTTSerialize_pingreq). -/
def MQTTSerialize_pingreq (bufsize : Nat) : Int × List Nat :=
  if 2 ≤ bufsize then (2, [192, 0]) else (-1, [])

/-- Modelled from the spec: PUBLISH serializer: control byte
48 + dup*8 + qos*2 + retained, Remaining Length, 2-byte big-endian topic
length, topic, packet id when qos > 0, payload (missing
utility/MQTTPacket.h, MQTTSerialize_publish). -/
def MQTTSerialize_publish (bufsize : Nat) (dup qos : Nat) (retained : Bool)
    (packetid : Nat) (topic payload : List Nat) : Int × List Nat :=
  let header := 48 + dup * 8 + qos * 2 + (if retained then 1 else 0)
  let body := [topic.length / 256, topic.length % 256] ++ topic
      ++ (if qos > 0 then [packetid / 256, packetid % 256] else []) ++ payload
  let bytes := header :: encodeRemLen body.length ++ body
  if bytes.length ≤ bufsize then ((bytes.length : Int), bytes) else (-1, [])

/-- Modelled from the spec: CONNECT serializer; fixed header plus protocol
name MQTT, level 4, the clean-session flag, the keepalive interval and an
empty client id; the optional option fields are abstracted away (missing
utility/MQTTPacket.h, MQTTSerialize_connect).  No claim inspects these
bytes. -/
def MQTTSerialize_connect (bufsize : Nat) (keepAlive : Nat)
    (clean : Bool) : Int × List Nat :=
  let body := [0, 4, 77, 81, 84, 84, 4, if clean then 2 else 0,
               keepAlive / 256, keepAlive % 256, 0, 0]
  let bytes := 16 :: encodeRemLen body.length ++ body
  if bytes.length ≤ bufsize then ((bytes.length : Int), bytes) else (-1, [])

/-- Modelled from the spec: SUBSCRIBE serializer with a single topic filter:
control byte 130, Remaining Length, packet id, length-prefixed filter,
requested qos (missing utility/MQTTPacket.h, MQTTSerialize_subscribe). -/
def MQTTSerialize_subscribe (bufsize : Nat) (dup : Nat) (packetid : Nat)
    (topic : List Nat) (qos : Nat) : Int × List Nat :=
  let body := [packetid / 256, packetid % 256,
               topic.length / 256, topic.length % 256] ++ topic ++ [qos]
  let bytes := (130 + dup * 8) :: encodeRemLen body.length ++ body
  if bytes.length ≤ bufsize then ((bytes.length : Int), bytes) else (-1, [])

/-- Modelled from the spec: ack deserializer, returning (packet type, dup,
packet id) when the buffer holds a well-formed ack (missing
utility/MQTTPacket.h, MQTTDeserialize_ack). -/
def MQTTDeserialize_ack (bs : List Nat) : Option (Nat × Nat × Nat) :=
  match bs with
  | b0 :: rest =>
    match parseRemLenAux 0 0 1 rest with
    | some (remlen, hi :: lo :: _) =>
      if remlen ≥ 2 then some (b0 / 16 % 16, b0 / 8 % 2, hi * 256 + lo)
      else none
    | _ => none
  | [] => none

/-- Modelled from the spec: CONNACK deserializer, returning (session present,
connack return code) (missing utility/MQTTPacket.h,
MQTTDeserialize_connack). -/
def MQTTDeserialize_connack (bs : List Nat) : Option (Bool × Nat) :=
  match bs with
  | b0 :: rest =>
    if b0 / 16 % 16 ≠ 2 then none
    else
      match parseRemLenAux 0 0 1 rest with
      | some (remlen, fl :: rc :: _) =>
        if remlen ≥ 2 then some (fl % 2 = 1, rc) else none
      | _ => none
  | [] => none

/-- Modelled from the spec: SUBACK deserializer for a single-filter
subscription, returning (packet id, granted qos) (missing
utility/MQTTPacket.h, MQTTDeserialize_suback). -/
def MQTTDeserialize_suback (bs : List Nat) : Option (Nat × Nat) :=
  match bs with
  | b0 :: rest =>
    if b0 / 16 % 16 ≠ 9 then none
    else
      match parseRemLenAux 0 0 1 rest with
      | some (remlen, idh :: idl :: g :: _) =>
        if remlen ≥ 3 then some (idh * 256 + idl, g) else none
      | _ => none
  | [] => none

/-- Modelled from the spec: PUBLISH deserializer, returning the message
fields and the topic (missing utility/MQTTPacket.h,
MQTTDeserialize_publish). -/
def MQTTDeserialize_publish (bs : List Nat) : Option (PubMsg × List Nat) :=
  match bs with
  | b0 :: rest =>
    if b0 / 16 % 16 ≠ 3 then none
    else
      match parseRemLenAux 0 0 1 rest with
      | some (remlen, tlh :: tll :: rest2) =>
        let qos := b0 / 2 % 4
        let tlen := tlh * 256 + tll
        if tlen + 2 + (if qos > 0 then 2 else 0) > remlen then none
        else if rest2.length + 2 < remlen then none
        else
          let topic := rest2.take tlen
          let rest3 := rest2.drop tlen
          let id := if qos > 0 then (rest3.headD 0) * 256 + rest3.tail.headD 0
                    else 0
          let rest4 := if qos > 0 then rest3.drop 2 else rest3
          let payloadlen := remlen - 2 - tlen - (if qos > 0 then 2 else 0)
          some ({ dup := b0 / 8 % 2, qos := qos, retained := b0 % 2 = 1,
                  id := id, payload := rest4.take payloadlen }, topic)
      | _ => none
  | [] => none

/-- Modelled from the spec (section 4.3, missing MQTTCommon.h MQTTPacketId):
the allocator returns the current 16-bit id and then increments, skipping 0. -/
def getNext (s : CState) : Nat × CState :=
  (s.packetid,
   { s with packetid := if s.packetid = 65535 then 1 else s.packetid + 1 })

/-- Embeds GenericMQTTClient::sendPacket (lines 256-280).  The outbound
transport accepts all bytes in one write, so the loop runs at most once:
if the timer has expired before anything was written the result is FAILURE,
otherwise the first `length` bytes of sendbuf are written and last_sent is
reset when keepalive is enabled. -/
def sendPacket (s : CState) (w : World) (length : Int) (timer : Nat) :
    Int × CState × World × Nat :=
  if length = 0 then
    (SUCCESS,
     if s.keepAliveInterval > 0 then { s with last_sent := s.keepAliveInterval }
     else s, w, timer)
  else if length < 0 then (FAILURE, s, w, timer)
  else
    match timerExpired timer with
    | (true, timer') => (FAILURE, s, w, timer')
    | (false, timer') =>
      let w := { w with sent := w.sent ++ [s.sendbuf.take length.toNat] }
      (SUCCESS,
       if s.keepAliveInterval > 0 then { s with last_sent := s.keepAliveInterval }
       else s, w, timer')

/-- Embeds GenericMQTTClient::readPacket (lines 315-355): read the header
byte, decode the Remaining Length (its return value is ignored, as in the
source), re-encode it into readbuf, check capacity, read the body.  rc is
FAILURE unless a complete packet arrives, in which case it is the type from
the header's high nibble. -/
def readPacket (MAXP : Nat) (s : CState) (w : World) (timer : Nat) :
    Int × CState × World × Nat :=
  match netRead w.net with
  | (rc1, bs, net1) =>
    if rc1 ≠ 1 then (FAILURE, s, { w with net := net1 }, timer)
    else
      let b0 := bs.headD 0
      match decodePacket net1 with
      | (_, rem_len, net2) =>
        let len := 1 + (encodeRemLen rem_len).length
        let s := { s with readbuf := b0 :: encodeRemLen rem_len }
        if (rem_len : Int) > (MAXP : Int) - (len : Int) then
          (BUFFER_OVERFLOW, s, { w with net := net2 }, timer)
        else if rem_len > 0 then
          match netRead net2 with
          | (rc3, body, net3) =>
            if rc3 ≠ (rem_len : Int) then (FAILURE, s, { w with net := net3 }, timer)
            else
              let s := { s with readbuf := s.readbuf ++ body }
              let s := if s.keepAliveInterval > 0 then
                  { s with last_received := s.keepAliveInterval }
                else s
              (((b0 / 16 % 16 : Nat) : Int), s, { w with net := net3 }, timer)
        else
          let s := if s.keepAliveInterval > 0 then
              { s with last_received := s.keepAliveInterval }
            else s
          (((b0 / 16 % 16 : Nat) : Int), s, { w with net := net2 }, timer)

/-- The inner loop of the `+` case of isTopicMatched (lines 372-376): advance
curn while the next topic character exists and is not a separator.  The fuel
argument only bounds the recursion structurally; topic.length steps always
suffice because curn stays below topic.length. -/
def skipPlusF : Nat → List Char → Nat → Nat
  | 0, _, curn => curn
  | fuel + 1, topic, curn =>
    if curn + 1 < topic.length ∧ topic.getD (curn + 1) '/' ≠ '/' then
      skipPlusF fuel topic (curn + 1)
    else curn

/-- The `+` skipping loop entered with enough fuel. -/
def skipPlus (topic : List Char) (curn : Nat) : Nat :=
  skipPlusF topic.length topic curn

/-- The value returned when the matching loop of isTopicMatched stops
(line 383): curn reached the end of the topic and the filter is exhausted. -/
def matchResult (filterRest : List Char) (curn endn : Nat) : Bool :=
  decide (curn = endn) && filterRest.isEmpty

/-- The loop of GenericMQTTClient::isTopicMatched (lines 367-381), structural
on the filter (curf advances once per iteration). -/
def topicMatchLoop (topic : List Char) : List Char → Nat → Bool
  | [], curn => matchResult [] curn topic.length
  | f :: fs, curn =>
    if curn < topic.length then
      let c := topic.getD curn ' '
      if c = '/' ∧ f ≠ '/' then matchResult (f :: fs) curn topic.length
      else if f ≠ '+' ∧ f ≠ '#' ∧ f ≠ c then matchResult (f :: fs) curn topic.length
      else
        let curn' := if f = '+' then skipPlus topic curn
                     else if f = '#' then topic.length - 1
                     else curn
        topicMatchLoop topic fs (curn' + 1)
    else matchResult (f :: fs) curn topic.length

/-- Embeds GenericMQTTClient::isTopicMatched (lines 361-384). -/
def isTopicMatched (topicFilter : List Char) (topicName : List Char) : Bool :=
  topicMatchLoop topicName topicFilter 0

/-- Embeds GenericMQTTClient::isQoS2msgidFree (lines 221-228): true iff no
slot of the inbound-QoS2 array holds the id. -/
def isQoS2msgidFree (id : Nat) : List Nat → Bool
  | [] => true
  | m :: ms => if m = id then false else isQoS2msgidFree id ms

/-- Embeds GenericMQTTClient::useQoS2msgid (lines 231-240): store the id in
the first empty (0) slot; false when no slot is empty. -/
def useQoS2msgid (id : Nat) : List Nat → List Nat × Bool
  | [] => ([], false)
  | m :: ms =>
    if m = 0 then (id :: ms, true)
    else
      let r := useQoS2msgid id ms
      (m :: r.1, r.2)

/-- Embeds GenericMQTTClient::freeQoS2msgid (lines 243-251): clear the first
slot holding the id. -/
def freeQoS2msgid (id : Nat) : List Nat → List Nat
  | [] => []
  | m :: ms => if m = id then 0 :: ms else m :: freeQoS2msgid id ms

/-- The handler-install loop of subscribe (lines 643-650): put the filter in
the first empty slot; false when the table is full. -/
def installHandler (filter : List Char) :
    List (Option (List Char)) → List (Option (List Char)) × Bool
  | [] => ([], false)
  | none :: hs => (some filter :: hs, true)
  | some f :: hs =>
    let r := installHandler filter hs
    (some f :: r.1, r.2)

/-- The handler loop of GenericMQTTClient::deliverMessage (lines 393-403):
every occupied slot whose filter equals the topic (MQTTPacket_equals,
modelled as list equality per spec section 4.4) or matches it via
isTopicMatched fires; rc is SUCCESS iff at least one fired. -/
def deliverLoop (topicC : List Char) (d : Delivery) :
    List (Option (List Char)) → Nat → World → Int × World
  | [], _, w => (FAILURE, w)
  | none :: hs, i, w => deliverLoop topicC d hs (i + 1) w
  | some f :: hs, i, w =>
    if f = topicC ∨ isTopicMatched f topicC then
      let w := { w with delivered := w.delivered ++ [{ d with handlerSlot := some i }] }
      let r := deliverLoop topicC d hs (i + 1) w
      (SUCCESS, r.2)
    else deliverLoop topicC d hs (i + 1) w

/-- Embeds GenericMQTTClient::deliverMessage (lines 387-412): dispatch to
matching handlers; when none fired and a default handler is attached it
fires instead. -/
def deliverMessage (s : CState) (w : World) (topicB : List Nat) (msg : PubMsg) :
    Int × World :=
  let d : Delivery := { handlerSlot := none, topic := topicB, msgid := msg.id,
                        qos := msg.qos, payload := msg.payload }
  match deliverLoop (topicB.map Char.ofNat) d s.messageHandlers 0 w with
  | (rc, w) =>
    if rc = FAILURE ∧ s.defaultAttached then
      (SUCCESS, { w with delivered := w.delivered ++ [d] })
    else (rc, w)

/-- Embeds GenericMQTTClient::keepalive (lines 519-539): disabled when the
interval is 0; otherwise a PINGREQ is sent (under a fresh short timer,
modelled with one unit of fuel) when either countdown has expired and no
ping is outstanding. -/
def keepalive (MAXP : Nat) (s : CState) (w : World) : Int × CState × World :=
  if s.keepAliveInterval = 0 then (SUCCESS, s, w)
  else
    match timerExpired s.last_sent with
    | (e1, ls') =>
      let s := { s with last_sent := ls' }
      match (if e1 then (true, s) else
              match timerExpired s.last_received with
              | (e2, lr') => (e2, { s with last_received := lr' })) with
      | (expired, s) =>
        if expired then
          if ¬ s.ping_outstanding then
            match MQTTSerialize_pingreq MAXP with
            | (len, bytes) =>
              if len > 0 then
                let s := { s with sendbuf := bytes }
                match sendPacket s w len 1 with
                | (rc, s, w, _) =>
                  if rc = SUCCESS then (SUCCESS, { s with ping_outstanding := true }, w)
                  else (FAILURE, s, w)
              else (FAILURE, s, w)
          else (FAILURE, s, w)
        else (FAILURE, s, w)

/-- The `goto exit` tail of cycle (lines 512-515): keepalive is skipped and
rc becomes the packet type only when it is still SUCCESS. -/
def cycleExit (rc pt : Int) (s : CState) (w : World) (timer : Nat) :
    Int × CState × World × Nat :=
  ((if rc = SUCCESS then pt else rc), s, w, timer)

/-- The fall-through tail of cycle (lines 511-515): keepalive runs (its
return value is discarded), then rc becomes the packet type when still
SUCCESS. -/
def cycleFinish (MAXP : Nat) (rc pt : Int) (s : CState) (w : World)
    (timer : Nat) : Int × CState × World × Nat :=
  match keepalive MAXP s w with
  | (_, s, w) => ((if rc = SUCCESS then pt else rc), s, w, timer)

/-- Embeds GenericMQTTClient::cycle (lines 432-516) with MQTTCLIENT_QOS1 and
MQTTCLIENT_QOS2 enabled: read one packet and dispatch on its type. -/
def cycle (MAXP : Nat) (s : CState) (w : World) (timer : Nat) :
    Int × CState × World × Nat :=
  match readPacket MAXP s w timer with
  | (packet_type, s, w, timer) =>
    if packet_type = FAILURE ∨ packet_type = BUFFER_OVERFLOW then
      cycleFinish MAXP packet_type packet_type s w timer
    else if packet_type = CONNACK ∨ packet_type = PUBACK ∨ packet_type = SUBACK then
      cycleFinish MAXP SUCCESS packet_type s w timer
    else if packet_type = PUBLISH then
      match MQTTDeserialize_publish s.readbuf with
      | none => cycleExit SUCCESS PUBLISH s w timer
      | some (msg, topicB) =>
        let sw :=
          if msg.qos ≠ 2 then (s, (deliverMessage s w topicB msg).2)
          else if isQoS2msgidFree msg.id s.incomingQoS2messages then
            match useQoS2msgid msg.id s.incomingQoS2messages with
            | (msgs', ok) =>
              let s := { s with incomingQoS2messages := msgs' }
              if ok then (s, (deliverMessage s w topicB msg).2)
              else (s, w)
          else (s, w)
        match sw with
        | (s, w) =>
          if msg.qos ≠ 0 then
            match (if msg.qos = 1 then MQTTSerialize_ack MAXP PUBACK 0 msg.id
                   else if msg.qos = 2 then MQTTSerialize_ack MAXP PUBREC 0 msg.id
                   else (0, [])) with
            | (len, bytes) =>
              if len ≤ 0 then cycleExit FAILURE PUBLISH s w timer
              else
                let s := { s with sendbuf := bytes }
                match sendPacket s w len timer with
                | (rc2, s, w, timer) =>
                  if rc2 = FAILURE then cycleExit FAILURE PUBLISH s w timer
                  else cycleFinish MAXP rc2 PUBLISH s w timer
          else cycleFinish MAXP SUCCESS PUBLISH s w timer
    else if packet_type = PUBREC ∨ packet_type = PUBREL then
      match MQTTDeserialize_ack s.readbuf with
      | none => cycleExit FAILURE packet_type s w timer
      | some (_, _, mypacketid) =>
        match MQTTSerialize_ack MAXP
            (if packet_type = PUBREC then PUBREL else PUBCOMP) 0 mypacketid with
        | (len, bytes) =>
          if len ≤ 0 then cycleExit FAILURE packet_type s w timer
          else
            let s := { s with sendbuf := bytes }
            match sendPacket s w len timer with
            | (rc2, s, w, timer) =>
              if rc2 ≠ SUCCESS then cycleExit FAILURE packet_type s w timer
              else
                let s := if packet_type = PUBREL then
                    { s with incomingQoS2messages :=
                        freeQoS2msgid mypacketid s.incomingQoS2messages }
                  else s
                cycleFinish MAXP SUCCESS packet_type s w timer
    else if packet_type = PINGRESP then
      cycleFinish MAXP SUCCESS packet_type { s with ping_outstanding := false } w timer
    else
      cycleFinish MAXP SUCCESS packet_type s w timer

/-- The loop of GenericMQTTClient::waitfor (lines 543-554), with the
iteration bound k: each iteration consumes one unit of the timer through
`expired()` and cycle never adds fuel, so with k larger than the timer the
k = 0 branch is unreachable and the function equals the unbounded loop. -/
def waitforAux (MAXP : Nat) (pt : Int) :
    Nat → Int → CState → World → Nat → Int × CState × World × Nat
  | 0, rc, s, w, timer => (rc, s, w, timer)
  | k + 1, rc, s, w, timer =>
    match timerExpired timer with
    | (true, timer') => (rc, s, w, timer')
    | (false, timer') =>
      match cycle MAXP s w timer' with
      | (rc', s', w', timer'') =>
        if rc' = pt then (rc', s', w', timer'')
        else waitforAux MAXP pt k rc' s' w' timer''

/-- Embeds GenericMQTTClient::waitfor (lines 543-554): rc starts at FAILURE;
the loop stops on timer expiry or when cycle returns the expected type. -/
def waitfor (MAXP : Nat) (pt : Int) (s : CState) (w : World) (timer : Nat) :
    Int × CState × World × Nat :=
  waitforAux MAXP pt (timer + 1) FAILURE s w timer

/-- The loop of GenericMQTTClient::yield (lines 415-429), bounded like
waitforAux. -/
def yieldAux (MAXP : Nat) :
    Nat → CState → World → Nat → Int × CState × World × Nat
  | 0, s, w, timer => (SUCCESS, s, w, timer)
  | k + 1, s, w, timer =>
    match timerExpired timer with
    | (true, timer') => (SUCCESS, s, w, timer')
    | (false, timer') =>
      match cycle MAXP s w timer' with
      | (rc, s, w, timer'') =>
        if rc < 0 then (FAILURE, s, w, timer'')
        else yieldAux MAXP k s w timer''

/-- Embeds GenericMQTTClient::yield (lines 415-429): run cycle until the
timer expires or a cycle returns a negative code. -/
def yield (MAXP : Nat) (s : CState) (w : World) (timeout_ms : Nat) :
    Int × CState × World :=
  match yieldAux MAXP (timeout_ms + 1) s w timeout_ms with
  | (rc, s, w, _) => (rc, s, w)

/-- The `exit` tail of the inner publish (lines 740-743): any rc other than
SUCCESS marks the client disconnected. -/
def pubExit (rc : Int) (s : CState) (w : World) (timer : Nat) :
    Int × CState × World × Nat :=
  if rc ≠ SUCCESS then (rc, { s with isconnected := false }, w, timer)
  else (rc, s, w, timer)

/-- Embeds the protected GenericMQTTClient::publish(len, timer, qos)
(lines 703-744): send the serialized packet from sendbuf, then for QOS1 wait
for the PUBACK and clear the inflight id on a match.  With MQTTCLIENT_QOS1
enabled the QOS2 branch of the source is disabled by `elif`, so a QOS2
publish returns right after the send. -/
def publishInner (MAXP : Nat) (s : CState) (w : World) (len : Int)
    (timer : Nat) (qos : Nat) : Int × CState × World × Nat :=
  match sendPacket s w len timer with
  | (rc, s, w, timer) =>
    if rc ≠ SUCCESS then pubExit rc s w timer
    else if qos = 1 then
      match waitfor MAXP PUBACK s w timer with
      | (rcw, s, w, timer) =>
        if rcw = PUBACK then
          match MQTTDeserialize_ack s.readbuf with
          | none => pubExit FAILURE s w timer
          | some (_, _, mypacketid) =>
            let s := if s.inflightMsgid = mypacketid then
                { s with inflightMsgid := 0 }
              else s
            pubExit rc s w timer
        else pubExit FAILURE s w timer
    else pubExit rc s w timer

/-- Embeds GenericMQTTClient::publish(topicName, payload, payloadlen, id,
qos, retained) (lines 747-786): allocate an id for qos 1 or 2, serialize,
store the inflight copy when the session is not clean, send and wait for
the ack.  The returned Nat is the id written through the out parameter. -/
def publish5 (MAXP : Nat) (s : CState) (w : World) (topicName : List Nat)
    (payload : List Nat) (qos : Nat) (retained : Bool) :
    Int × CState × World × Nat :=
  let timer := s.command_timeout_ms
  if ¬ s.isconnected then (FAILURE, s, w, 0)
  else
    match (if qos = 1 ∨ qos = 2 then getNext s else (0, s)) with
    | (id, s) =>
      match MQTTSerialize_publish MAXP 0 qos retained id topicName payload with
      | (len, bytes) =>
        if len ≤ 0 then (FAILURE, s, w, id)
        else
          let s := { s with sendbuf := bytes }
          let s := if ¬ s.cleansession then
              { s with pubbuf := bytes, inflightMsgid := id,
                       inflightLen := len.toNat, inflightQoS := qos,
                       pubrel := false }
            else s
          match publishInner MAXP s w len timer qos with
          | (rc, s, w, _) => (rc, s, w, id)

/-- The `exit` tail of subscribe (lines 656-659): any rc other than SUCCESS
marks the client disconnected. -/
def subscribeExit (rc : Int) (s : CState) (w : World) : Int × CState × World :=
  (rc, if rc ≠ SUCCESS then { s with isconnected := false } else s, w)

/-- Embeds GenericMQTTClient::subscribe (lines 618-660): serialize and send
SUBSCRIBE, wait for the SUBACK, surface the granted qos (0x80 = rejection,
no install), install the handler in the first free slot otherwise. -/
def subscribe (MAXP : Nat) (s : CState) (w : World) (topicFilter : List Char)
    (qos : Nat) : Int × CState × World :=
  let timer := s.command_timeout_ms
  if ¬ s.isconnected then subscribeExit FAILURE s w
  else
    match getNext s with
    | (pid, s) =>
      match MQTTSerialize_subscribe MAXP 0 pid (topicFilter.map Char.toNat) qos with
      | (len, bytes) =>
        if len ≤ 0 then subscribeExit FAILURE s w
        else
          let s := { s with sendbuf := bytes }
          match sendPacket s w len timer with
          | (rc, s, w, timer) =>
            if rc ≠ SUCCESS then subscribeExit rc s w
            else
              match waitfor MAXP SUBACK s w timer with
              | (rcw, s, w, _) =>
                if rcw = SUBACK then
                  let rc : Int :=
                    match MQTTDeserialize_suback s.readbuf with
                    | some (_, granted) => (granted : Int)
                    | none => rc
                  if rc ≠ 0x80 then
                    match installHandler topicFilter s.messageHandlers with
                    | (hs, installed) =>
                      let s := { s with messageHandlers := hs }
                      subscribeExit (if installed then SUCCESS else rc) s w
                  else subscribeExit rc s w
                else subscribeExit FAILURE s w

/-- The `exit` tail of connect (lines 604-607): isconnected is set only when
rc is SUCCESS. -/
def connectExit (rc : Int) (s : CState) (w : World) : Int × CState × World :=
  (rc, if rc = SUCCESS then { s with isconnected := true } else s, w)

/-- Embeds GenericMQTTClient::connect(options) (lines 557-608): refuse when
already connected; record keepalive and clean-session from the options;
send CONNECT and wait for the CONNACK, surfacing its return code; then
(QOS1 and QOS2 enabled) replay an inflight message: the stored PUBREL when
pubrel is set, otherwise the stored publish bytes copied unchanged from
pubbuf into sendbuf. -/
def connect (MAXP : Nat) (s : CState) (w : World) (optKeepAlive : Nat)
    (optClean : Bool) : Int × CState × World :=
  let timer := s.command_timeout_ms
  if s.isconnected then connectExit FAILURE s w
  else
    let s := { s with keepAliveInterval := optKeepAlive, cleansession := optClean }
    match MQTTSerialize_connect MAXP optKeepAlive optClean with
    | (len, bytes) =>
      if len ≤ 0 then connectExit FAILURE s w
      else
        let s := { s with sendbuf := bytes }
        match sendPacket s w len timer with
        | (rc, s, w, timer) =>
          if rc ≠ SUCCESS then connectExit rc s w
          else
            let s := if s.keepAliveInterval > 0 then
                { s with last_received := s.keepAliveInterval }
              else s
            match waitfor MAXP CONNACK s w timer with
            | (rcw, s, w, timer) =>
              let rc : Int :=
                if rcw = CONNACK then
                  match MQTTDeserialize_connack s.readbuf with
                  | some (_, crc) => (crc : Int)
                  | none => FAILURE
                else FAILURE
              if s.inflightMsgid > 0 ∧ s.inflightQoS = 2 ∧ s.pubrel then
                match MQTTSerialize_ack MAXP PUBREL 0 s.inflightMsgid with
                | (len2, bytes2) =>
                  if len2 ≤ 0 then connectExit FAILURE s w
                  else
                    let s := { s with sendbuf := bytes2 }
                    match publishInner MAXP s w len2 timer s.inflightQoS with
                    | (rc2, s, w, _) => connectExit rc2 s w
              else if s.inflightMsgid > 0 then
                let s := { s with sendbuf := s.pubbuf }
                match publishInner MAXP s w (s.inflightLen : Int) timer s.inflightQoS with
                | (rc2, s, w, _) => connectExit rc2 s w
              else connectExit rc s w

/-- Shorthand for the character list of a string literal. -/
def lit (s : String) : List Char :=
  s.data

/-- Inbound injection of a 2-byte-body ack packet with the given header byte
and packet id, in the chunks readPacket reads: the header byte, the single
Remaining Length byte, then the body in one read. -/
def ackEvents (hdr : Nat) (id : Nat) : List NetEv :=
  [NetEv.bytes [hdr], NetEv.bytes [2], NetEv.bytes [id / 256, id % 256]]

/-- Inbound injection of a CONNACK with the given return code. -/
def connackEvents (rc : Nat) : List NetEv :=
  [NetEv.bytes [32], NetEv.bytes [2], NetEv.bytes [0, rc]]

/-- Inbound injection of a SUBACK granting the given qos for packet id 7. -/
def subackEvents (granted : Nat) : List NetEv :=
  [NetEv.bytes [144], NetEv.bytes [3], NetEv.bytes [0, 7, granted]]

/-- Inbound injection of a QoS-2 PUBLISH with the given packet id, topic
consisting of the byte 116 and payload of the byte 118 (header byte
52 = 48 + qos 2 * 2). -/
def qos2PublishEvents (id : Nat) : List NetEv :=
  [NetEv.bytes [52], NetEv.bytes [6], NetEv.bytes [0, 1, 116, id / 256, id % 256, 118]]

/-- A freshly constructed, connected client with keepalive disabled, a clean
handler table of 5 slots, an attached default handler and the 10 empty
inbound-QoS2 slots of the source's constructor. -/
def sInit : CState :=
  { command_timeout_ms := 10, sendbuf := [], readbuf := [],
    last_sent := 0, last_received := 0, keepAliveInterval := 0,
    ping_outstanding := false, cleansession := false, packetid := 1,
    messageHandlers := [none, none, none, none, none],
    defaultAttached := true, isconnected := true,
    pubbuf := [], inflightLen := 0, inflightMsgid := 0, inflightQoS := 0,
    pubrel := false, incomingQoS2messages := [0, 0, 0, 0, 0, 0, 0, 0, 0, 0] }

/-- An empty world: no pending inbound bytes, nothing sent or delivered. -/
def wInit : World :=
  { net := [], sent := [], delivered := [] }

/-- Scenario for C3: a QoS-1 publish of topic [120], payload [121] in a
non-clean session whose PUBACK never arrives (empty inbound trace), so the
publish fails and the serialized packet stays inflight. -/
def c3AfterPublish : Int × CState × World × Nat :=
  publish5 100 sInit wInit [120] [121] 1 false

/-- Scenario for C3: the reconnect, with a CONNACK (return code 0) and then
the PUBACK for the original id 1 injected. -/
def c3Reconnect : Int × CState × World :=
  connect 100 c3AfterPublish.2.1
    { net := connackEvents 0 ++ ackEvents 64 1, sent := [], delivered := [] } 0 false

/-- Scenario for C9: one in-session inbound trace of QoS-2 PUBLISH id 42,
then the broker's PUBREL 42 (header 96), then a new QoS-2 PUBLISH reusing
id 42; processed by three cycles. -/
def c9Step1 : Int × CState × World × Nat :=
  cycle 100 sInit
    { net := qos2PublishEvents 42 ++ ackEvents 96 42 ++ qos2PublishEvents 42,
      sent := [], delivered := [] } 9

/-- Scenario for C9, second cycle (the PUBREL). -/
def c9Step2 : Int × CState × World × Nat :=
  cycle 100 c9Step1.2.1 c9Step1.2.2.1 c9Step1.2.2.2

/-- Scenario for C9, third cycle (the reused id 42). -/
def c9Step3 : Int × CState × World × Nat :=
  cycle 100 c9Step2.2.1 c9Step2.2.2.1 c9Step2.2.2.2

/-- Scenario for C4: a client with an inflight QoS-2 publish, id 7, whose
pubrel flag is still false. -/
def sInflight : CState :=
  { sInit with inflightMsgid := 7, inflightQoS := 2, inflightLen := 8 }

/-- Scenario for C3 (QoS-2 part): a disconnected client holding an inflight
QoS-2 publish of id 3 (pubrel still false) whose serialized bytes are
stored in pubbuf. -/
def c3Qos2State : CState :=
  { sInit with isconnected := false, inflightMsgid := 3, inflightQoS := 2,
               inflightLen := 8,
               pubbuf := (MQTTSerialize_publish 100 0 2 false 3 [120] [121]).2 }

/-- Keepalive never touches the connection flag: it only sends a PINGREQ and
updates the ping and countdown bookkeeping. -/
theorem keepalive_preserves_isconnected (MAXP : Nat) (s : CState) (w : World) :
    ((keepalive MAXP s w).2.1).isconnected = s.isconnected := by
  obtain ⟨ct, sb, rb, ls, lr, ka, po, cs, pid, mh, da, ic, pb, il, im, iq, pr, iq2⟩ := s
  rcases ka with _ | ka
  · rfl
  · by_cases hp : 2 ≤ MAXP <;>
      rcases ls with _ | ls <;> rcases lr with _ | lr <;> cases po <;>
        simp [keepalive, MQTTSerialize_pingreq, sendPacket, timerExpired, hp,
              SUCCESS, FAILURE]

/-- When no slot of the inbound-QoS2 array is 0, inserting 0 finds no free
slot and fails, leaving the array unchanged. -/
theorem useQoS2msgid_zero_of_free (ms : List Nat)
    (h : isQoS2msgidFree 0 ms = true) : useQoS2msgid 0 ms = (ms, false) := by
  induction ms with
  | nil => rfl
  | cons m ms ih =>
    unfold isQoS2msgidFree at h
    unfold useQoS2msgid
    by_cases hm : m = 0
    · simp [hm] at h
    · simp [hm] at h ⊢
      rw [ih h]
      exact ⟨rfl, rfl⟩

/-- C8: the topic matcher satisfies the six specified cases: one-level `+`
inside a filter, trailing `#`, `+` not spanning two levels, bare `#`,
two independent `+` levels, and `+` requiring a level to exist. -/
theorem C8_topic_matcher_cases :
    isTopicMatched (lit "sport/+/player1") (lit "sport/tennis/player1") = true ∧
    isTopicMatched (lit "sport/#") (lit "sport/tennis/player1") = true ∧
    isTopicMatched (lit "sport/+") (lit "sport/tennis/player1") = false ∧
    isTopicMatched (lit "#") (lit "any/topic") = true ∧
    isTopicMatched (lit "+/+") (lit "a/b") = true ∧
    isTopicMatched (lit "a/+") (lit "a") = false := by
  decide

/-- C1 (amended): when the first transport read does not return a byte —
the timer expired quietly or the read failed — readPacket returns FAILURE
itself: there is no separate "none" sentinel distinct from FAILURE. -/
theorem C1_first_read_short_returns_FAILURE (MAXP : Nat) (s : CState)
    (w : World) (timer : Nat) (h : (netRead w.net).1 ≠ 1) :
    readPacket MAXP s w timer
      = (FAILURE, s, { w with net := (netRead w.net).2.2 }, timer) := by
  obtain ⟨net, snt, dlv⟩ := w
  rcases hn : netRead net with ⟨rc1, bs, net1⟩
  rw [hn] at h
  simp only at h
  simp [readPacket, hn, h]

/-- C1 witness: the theorem applied to the empty inbound trace. -/
theorem C1_first_read_short_witness :
    (netRead wInit.net).1 ≠ 1 ∧
    readPacket 100 sInit wInit 5
      = (FAILURE, sInit, { wInit with net := (netRead wInit.net).2.2 }, 5) :=
  ⟨by decide, C1_first_read_short_returns_FAILURE 100 sInit wInit 5 (by decide)⟩

/-- C1 counterexample: on a quiet timeout (empty inbound trace) readPacket
does not return a value distinct from FAILURE — it returns FAILURE. -/
theorem C1_no_distinct_sentinel_cex :
    ¬ ((readPacket 100 sInit wInit 5).1 ≠ FAILURE ∧
       (readPacket 100 sInit wInit 5).1 ≠ BUFFER_OVERFLOW) := by
  decide

/-- C6 (amended): when the inbound packet's remaining length exceeds the
remaining buffer capacity, cycle returns BUFFER_OVERFLOW, but is_connected
is not modified — neither readPacket nor cycle ever assigns it. -/
theorem C6_overflow_keeps_isconnected (MAXP : Nat) (s : CState) (w : World)
    (timer : Nat) (b0 r : Nat) (rest : List NetEv)
    (hr : r < 128) (hov : (MAXP : Int) - 2 < (r : Int))
    (hnet : w.net = NetEv.bytes [b0] :: NetEv.bytes [r] :: rest) :
    (cycle MAXP s w timer).1 = BUFFER_OVERFLOW ∧
    (cycle MAXP s w timer).2.1.isconnected = s.isconnected := by
  obtain ⟨net, snt, dlv⟩ := w
  simp only at hnet
  subst hnet
  have h1 : r % 256 / 128 ≠ 1 := by omega
  have h2 : r % 128 = r := by omega
  have hread : readPacket MAXP s ⟨NetEv.bytes [b0] :: NetEv.bytes [r] :: rest, snt, dlv⟩ timer
      = (BUFFER_OVERFLOW, { s with readbuf := b0 :: encodeRemLen r },
         ⟨rest, snt, dlv⟩, timer) := by
    simp [readPacket, netRead, decodePacket, decodePacketAux, encodeRemLen,
          encodeRemLenF, h1, h2, hr, gt_iff_lt, hov]
  have hcyc : cycle MAXP s ⟨NetEv.bytes [b0] :: NetEv.bytes [r] :: rest, snt, dlv⟩ timer
      = cycleFinish MAXP BUFFER_OVERFLOW BUFFER_OVERFLOW
          { s with readbuf := b0 :: encodeRemLen r } ⟨rest, snt, dlv⟩ timer := by
    simp [cycle, hread, BUFFER_OVERFLOW, FAILURE]
  rw [hcyc]
  unfold cycleFinish
  rcases hk : keepalive MAXP { s with readbuf := b0 :: encodeRemLen r }
      ⟨rest, snt, dlv⟩ with ⟨krc, ks, kw⟩
  have hkic := keepalive_preserves_isconnected MAXP
      { s with readbuf := b0 :: encodeRemLen r } ⟨rest, snt, dlv⟩
  rw [hk] at hkic
  simp [BUFFER_OVERFLOW, SUCCESS]
  exact hkic

/-- C6 witness: the theorem applied to MaxPacketSize 20 and an inbound
packet announcing remaining length 100. -/
theorem C6_overflow_witness :
    ((20 : Nat) : Int) - 2 < ((100 : Nat) : Int) ∧
    (cycle 20 sInit { wInit with net := [NetEv.bytes [48], NetEv.bytes [100]] } 5).1
        = BUFFER_OVERFLOW ∧
    (cycle 20 sInit { wInit with net := [NetEv.bytes [48], NetEv.bytes [100]] } 5).2.1.isconnected
        = sInit.isconnected :=
  ⟨by decide,
   C6_overflow_keeps_isconnected 20 sInit
     { wInit with net := [NetEv.bytes [48], NetEv.bytes [100]] } 5 48 100 []
     (by decide) (by decide) (by decide)⟩

/-- C6 counterexample: with MaxPacketSize 20 and an inbound PUBLISH header
announcing remaining length 100, cycle returns BUFFER_OVERFLOW but
is_connected stays true, contrary to the claimed transition to false. -/
theorem C6_isconnected_not_cleared_cex :
    (cycle 20 sInit { wInit with net := [NetEv.bytes [48], NetEv.bytes [100]] } 5).1
        = BUFFER_OVERFLOW ∧
    (cycle 20 sInit { wInit with net := [NetEv.bytes [48], NetEv.bytes [100]] } 5).2.1.isconnected
        = true := by
  decide

/-- C4 (amended): for a PUBREC carrying packet id, cycle answers with a
PUBREL for the same id, but the inflight pubrel flag is left unchanged —
the source never sets it to true. -/
theorem C4_pubrec_sends_pubrel_leaves_flag (s : CState) (w : World)
    (u id : Nat) (rest : List NetEv)
    (h0 : s.keepAliveInterval = 0)
    (hnet : w.net = ackEvents 80 id ++ rest) :
    cycle 100 s w (u + 1)
      = (PUBREC,
         { s with readbuf := [80, 2, id / 256, id % 256],
                  sendbuf := [98, 2, id / 256, id % 256] },
         { w with net := rest, sent := w.sent ++ [[98, 2, id / 256, id % 256]] },
         u) := by
  obtain ⟨ct, sb, rb, ls, lr, ka, po, cs, pid, mh, da, ic, pb, il, im, iq, pr, iq2⟩ := s
  obtain ⟨net, snt, dlv⟩ := w
  simp only at h0 hnet
  subst h0
  subst hnet
  have hcons : ackEvents 80 id ++ rest
      = NetEv.bytes [80] :: NetEv.bytes [2] :: NetEv.bytes [id / 256, id % 256] :: rest := rfl
  rw [hcons]
  simp [cycle, readPacket, netRead, decodePacket, decodePacketAux, encodeRemLen,
        encodeRemLenF, MQTTDeserialize_ack, parseRemLenAux, MQTTSerialize_ack,
        sendPacket, timerExpired, cycleFinish, cycleExit, keepalive,
        Nat.div_add_mod, List.take_succ_cons,
        SUCCESS, FAILURE, BUFFER_OVERFLOW, CONNACK, PUBACK, SUBACK, PUBLISH,
        PUBREC, PUBREL, PUBCOMP, PINGRESP]
  omega

/-- C4 witness: the theorem applied to the inflight state with id 7 and an
injected PUBREC for id 7. -/
theorem C4_pubrec_witness :
    sInflight.keepAliveInterval = 0 ∧
    cycle 100 sInflight { wInit with net := ackEvents 80 7 } (4 + 1)
      = (PUBREC,
         { sInflight with readbuf := [80, 2, 0, 7], sendbuf := [98, 2, 0, 7] },
         { wInit with net := [], sent := [[98, 2, 0, 7]] },
         4) := by
  constructor
  · decide
  · have h := C4_pubrec_sends_pubrel_leaves_flag sInflight
      { wInit with net := ackEvents 80 7 } 4 7 [] (by decide) (by decide)
    simpa using h

/-- C4 counterexample: with an inflight publish of id 7 and pubrel still
false, cycle on a PUBREC for id 7 sends the PUBREL but does not set the
pubrel flag to true. -/
theorem C4_pubrel_flag_not_set_cex :
    (cycle 100 sInflight { wInit with net := ackEvents 80 7 } 5).1 = PUBREC ∧
    (cycle 100 sInflight { wInit with net := ackEvents 80 7 } 5).2.2.1.sent
        = [[98, 2, 0, 7]] ∧
    ¬ (cycle 100 sInflight { wInit with net := ackEvents 80 7 } 5).2.1.pubrel = true := by
  decide

/-- C7 (amended): on any stream whose first four Remaining Length bytes all
carry the continuation bit — so a fifth byte would be required — decodePacket
stops after consuming exactly those 4 bytes, leaving the rest of the stream
unread, and returns the length count 5 together with the truncated 28-bit
value; no other error channel exists (the caller readPacket ignores this
return value). -/
theorem C7_decode_stops_after_four_bytes (b1 b2 b3 b4 : Nat) (rest : List NetEv)
    (h1 : b1 % 256 / 128 = 1) (h2 : b2 % 256 / 128 = 1)
    (h3 : b3 % 256 / 128 = 1) (h4 : b4 % 256 / 128 = 1) :
    decodePacket (NetEv.bytes [b1] :: NetEv.bytes [b2] :: NetEv.bytes [b3]
        :: NetEv.bytes [b4] :: rest)
      = (5, b1 % 128 + b2 % 128 * 128 + b3 % 128 * 16384 + b4 % 128 * 2097152,
         rest) := by
  simp [decodePacket, decodePacketAux, netRead, h1, h2, h3, h4]

/-- C7 witness: the theorem applied to four 0x80 bytes followed by one more
pending byte. -/
theorem C7_decode_stops_witness :
    (128 : Nat) % 256 / 128 = 1 ∧
    decodePacket [NetEv.bytes [128], NetEv.bytes [128], NetEv.bytes [128],
        NetEv.bytes [128], NetEv.bytes [5]]
      = (5, 128 % 128 + 128 % 128 * 128 + 128 % 128 * 16384 + 128 % 128 * 2097152,
         [NetEv.bytes [5]]) :=
  ⟨by decide,
   C7_decode_stops_after_four_bytes 128 128 128 128 [NetEv.bytes [5]]
     (by decide) (by decide) (by decide) (by decide)⟩

/-- C7 counterexample: a packet whose Remaining Length field needs a fifth
byte is not reported as an error to readPacket's caller: readPacket returns
the ordinary packet type 13 taken from the header, uses the truncated value
0 as the remaining length (readbuf holds [208, 0]), and leaves the fifth
length byte unconsumed in the stream. -/
theorem C7_truncated_value_used_cex :
    (readPacket 100 sInit
        { wInit with net := [NetEv.bytes [208], NetEv.bytes [128], NetEv.bytes [128],
            NetEv.bytes [128], NetEv.bytes [128], NetEv.bytes [5]] } 9).1 = PINGRESP ∧
    (readPacket 100 sInit
        { wInit with net := [NetEv.bytes [208], NetEv.bytes [128], NetEv.bytes [128],
            NetEv.bytes [128], NetEv.bytes [128], NetEv.bytes [5]] } 9).2.1.readbuf
        = [208, 0] ∧
    (readPacket 100 sInit
        { wInit with net := [NetEv.bytes [208], NetEv.bytes [128], NetEv.bytes [128],
            NetEv.bytes [128], NetEv.bytes [128], NetEv.bytes [5]] } 9).2.2.1.net
        = [NetEv.bytes [5]] := by
  decide

/-- C10: an inbound QoS-2 PUBLISH with packet id 0 is never delivered, in
any state of the inbound-QoS2 array: if some slot is 0 the id tests as
already present, and otherwise the insertion finds no free slot and fails;
in both cases a PUBREC for id 0 is still sent. -/
theorem C10_qos2_id0_never_delivered (s : CState) (w : World) (u : Nat)
    (rest : List NetEv)
    (h0 : s.keepAliveInterval = 0)
    (hnet : w.net = qos2PublishEvents 0 ++ rest) :
    (cycle 100 s w (u + 1)).2.2.1.delivered = w.delivered ∧
    (cycle 100 s w (u + 1)).2.2.1.sent = w.sent ++ [[80, 2, 0, 0]] ∧
    (cycle 100 s w (u + 1)).1 = PUBLISH := by
  obtain ⟨ct, sb, rb, ls, lr, ka, po, cs, pid, mh, da, ic, pb, il, im, iq, pr, iq2⟩ := s
  obtain ⟨net, snt, dlv⟩ := w
  simp only at h0 hnet
  subst h0
  subst hnet
  have hcons : qos2PublishEvents 0 ++ rest
      = NetEv.bytes [52] :: NetEv.bytes [6] :: NetEv.bytes [0, 1, 116, 0, 0, 118] :: rest := rfl
  rw [hcons]
  cases hfree : isQoS2msgidFree 0 iq2 with
  | false =>
    simp [cycle, readPacket, netRead, decodePacket, decodePacketAux, encodeRemLen,
          encodeRemLenF, MQTTDeserialize_publish, parseRemLenAux, MQTTSerialize_ack,
          sendPacket, timerExpired, cycleFinish, cycleExit, keepalive, hfree,
          List.take_succ_cons,
          SUCCESS, FAILURE, BUFFER_OVERFLOW, CONNACK, PUBACK, SUBACK, PUBLISH,
          PUBREC, PUBREL, PUBCOMP, PINGRESP]
  | true =>
    simp [cycle, readPacket, netRead, decodePacket, decodePacketAux, encodeRemLen,
          encodeRemLenF, MQTTDeserialize_publish, parseRemLenAux, MQTTSerialize_ack,
          sendPacket, timerExpired, cycleFinish, cycleExit, keepalive, hfree,
          useQoS2msgid_zero_of_free iq2 hfree, List.take_succ_cons,
          SUCCESS, FAILURE, BUFFER_OVERFLOW, CONNACK, PUBACK, SUBACK, PUBLISH,
          PUBREC, PUBREL, PUBCOMP, PINGRESP]

/-- C10 witness: the theorem applied to the fresh client (all inbound-QoS2
slots empty). -/
theorem C10_qos2_id0_witness :
    sInit.keepAliveInterval = 0 ∧
    ((cycle 100 sInit { wInit with net := qos2PublishEvents 0 } (3 + 1)).2.2.1.delivered
        = wInit.delivered ∧
     (cycle 100 sInit { wInit with net := qos2PublishEvents 0 } (3 + 1)).2.2.1.sent
        = wInit.sent ++ [[80, 2, 0, 0]] ∧
     (cycle 100 sInit { wInit with net := qos2PublishEvents 0 } (3 + 1)).1 = PUBLISH) :=
  ⟨by decide,
   by
     have h := C10_qos2_id0_never_delivered sInit
       { wInit with net := qos2PublishEvents 0 } 3 [] (by decide) (by simp)
     simpa using h⟩

/-- One cycle on a transport read error: readPacket fails before any state
change, so cycle returns FAILURE with only the erroneous read consumed
(keepalive is disabled here). -/
theorem cycle_on_read_error (s : CState) (w : World) (t : Nat) (c : Int)
    (rest : List NetEv)
    (h0 : s.keepAliveInterval = 0) (hc : c ≠ 1)
    (hnet : w.net = NetEv.rerr c :: rest) :
    cycle 100 s w t = (FAILURE, s, { w with net := rest }, t) := by
  obtain ⟨ct, sb, rb, ls, lr, ka, po, cs, pid, mh, da, ic, pb, il, im, iq, pr, iq2⟩ := s
  obtain ⟨net, snt, dlv⟩ := w
  simp only at h0 hnet
  subst h0
  subst hnet
  simp [cycle, readPacket, netRead, hc, cycleFinish, keepalive, FAILURE, SUCCESS]

/-- One cycle on an injected PUBACK with any packet id: readPacket frames
it, the PUBACK case leaves it in readbuf for the caller, keepalive is
disabled. -/
theorem cycle_on_puback (s : CState) (w : World) (t id : Nat) (rest : List NetEv)
    (h0 : s.keepAliveInterval = 0)
    (hnet : w.net = ackEvents 64 id ++ rest) :
    cycle 100 s w t
      = (PUBACK, { s with readbuf := [64, 2, id / 256, id % 256] },
         { w with net := rest }, t) := by
  obtain ⟨ct, sb, rb, ls, lr, ka, po, cs, pid, mh, da, ic, pb, il, im, iq, pr, iq2⟩ := s
  obtain ⟨net, snt, dlv⟩ := w
  simp only at h0 hnet
  subst h0
  subst hnet
  have hcons : ackEvents 64 id ++ rest
      = NetEv.bytes [64] :: NetEv.bytes [2] :: NetEv.bytes [id / 256, id % 256] :: rest := rfl
  rw [hcons]
  rfl

/-- The waitfor loop keeps cycling over read errors and stops with the
expected type once the PUBACK arrives; the negative codes returned by the
failing cycles do not end the loop. -/
theorem waitforAux_errors_then_puback :
    ∀ (n k t : Nat) (rc0 : Int) (s : CState) (w : World) (rest : List NetEv),
      s.keepAliveInterval = 0 →
      w.net = List.replicate n (NetEv.rerr (-1)) ++ ackEvents 64 7 ++ rest →
      n + 1 ≤ k → n + 1 ≤ t →
      (waitforAux 100 PUBACK k rc0 s w t).1 = PUBACK := by
  intro n
  induction n with
  | zero =>
    intro k t rc0 s w rest h0 hnet hk ht
    match k, hk with
    | k' + 1, _ =>
      match t, ht with
      | t' + 1, _ =>
        simp only [List.replicate, List.nil_append] at hnet
        simp only [waitforAux, timerExpired]
        rw [cycle_on_puback s w t' 7 rest h0 hnet]
        simp [PUBACK]
  | succ m ih =>
    intro k t rc0 s w rest h0 hnet hk ht
    match k, hk with
    | k' + 1, _ =>
      match t, ht with
      | t' + 1, _ =>
        simp only [List.replicate, List.cons_append] at hnet
        simp only [waitforAux, timerExpired]
        rw [cycle_on_read_error s w t' (-1)
              (List.replicate m (NetEv.rerr (-1)) ++ ackEvents 64 7 ++ rest)
              h0 (by decide) hnet]
        have hne : FAILURE ≠ PUBACK := by decide
        simp only [hne, if_false]
        exact ih k' t' FAILURE s _ rest h0 rfl (by omega) (by omega)

/-- When every read fails, the loop runs until the timer expires and
returns the last cycle's FAILURE (or the initial FAILURE when no cycle
ran), never stopping early on the negative codes. -/
theorem waitforAux_all_errors :
    ∀ (k t m : Nat) (s : CState) (w : World),
      s.keepAliveInterval = 0 →
      w.net = List.replicate m (NetEv.rerr (-1)) →
      t ≤ m →
      (waitforAux 100 PUBACK k FAILURE s w t).1 = FAILURE := by
  intro k
  induction k with
  | zero =>
    intro t m s w h0 hnet ht
    rfl
  | succ k' ih =>
    intro t m s w h0 hnet ht
    match t with
    | 0 => rfl
    | t' + 1 =>
      match m, ht with
      | m' + 1, _ =>
        simp only [List.replicate] at hnet
        simp only [waitforAux, timerExpired]
        rw [cycle_on_read_error s w t' (-1) (List.replicate m' (NetEv.rerr (-1)))
              h0 (by decide) hnet]
        have hne : FAILURE ≠ PUBACK := by decide
        simp only [hne, if_false]
        exact ih t' m' s _ h0 rfl (by omega)

/-- C2 (amended): waitfor repeatedly invokes cycle until cycle returns the
expected type or the timer expires; a negative code from cycle does NOT end
the loop.  First part: any number n of cycles returning FAILURE is cycled
past, and the expected PUBACK arriving afterwards is still returned.
Second part: when every cycle fails, waitfor returns FAILURE only once the
timer has expired. -/
theorem C2_waitfor_continues_past_negative :
    (∀ (n t : Nat) (s : CState) (w : World) (rest : List NetEv),
        s.keepAliveInterval = 0 →
        w.net = List.replicate n (NetEv.rerr (-1)) ++ ackEvents 64 7 ++ rest →
        n + 1 ≤ t →
        (waitfor 100 PUBACK s w t).1 = PUBACK) ∧
    (∀ (t m : Nat) (s : CState) (w : World),
        s.keepAliveInterval = 0 →
        w.net = List.replicate m (NetEv.rerr (-1)) →
        t ≤ m →
        (waitfor 100 PUBACK s w t).1 = FAILURE) :=
  ⟨fun n t s w rest h0 hnet ht =>
     waitforAux_errors_then_puback n (t + 1) t FAILURE s w rest h0 hnet (by omega) ht,
   fun t m s w h0 hnet ht =>
     waitforAux_all_errors (t + 1) t m s w h0 hnet ht⟩

/-- C2 witness: both parts of the theorem at concrete inputs — one failing
cycle before the PUBACK, and a trace of three failing reads under a
two-unit timer. -/
theorem C2_waitfor_witness :
    (waitfor 100 PUBACK sInit
        { wInit with net := List.replicate 1 (NetEv.rerr (-1)) ++ ackEvents 64 7 } 5).1
      = PUBACK ∧
    (waitfor 100 PUBACK sInit
        { wInit with net := List.replicate 3 (NetEv.rerr (-1)) } 2).1 = FAILURE :=
  ⟨C2_waitfor_continues_past_negative.1 1 5 sInit
     { wInit with net := List.replicate 1 (NetEv.rerr (-1)) ++ ackEvents 64 7 } []
     (by decide) (by simp) (by omega),
   C2_waitfor_continues_past_negative.2 2 3 sInit
     { wInit with net := List.replicate 3 (NetEv.rerr (-1)) }
     (by decide) (by simp) (by omega)⟩

/-- C2 counterexample: the first cycle of this waitfor returns the negative
code FAILURE, yet waitfor does not return it immediately: it invokes cycle
again and returns the PUBACK that the second cycle reads. -/
theorem C2_negative_not_returned_cex :
    (cycle 100 sInit { wInit with net := NetEv.rerr (-1) :: ackEvents 64 7 } 4).1
      = FAILURE ∧
    (waitfor 100 PUBACK sInit
        { wInit with net := NetEv.rerr (-1) :: ackEvents 64 7 } 5).1 = PUBACK := by
  decide

/-- C5 (amended): a subscribe answered by a SUBACK granting 0x80 returns
0x80 and installs no handler, but the exit path treats the nonzero return
code as a failure, so is_connected becomes false: broker rejection does
disconnect the client. -/
theorem C5_suback_rejection_disconnects (s : CState) (w : World) (u : Nat)
    (rest : List NetEv)
    (h0 : s.keepAliveInterval = 0) (hic : s.isconnected = true)
    (hct : s.command_timeout_ms = u + 2)
    (hnet : w.net = subackEvents 128 ++ rest) :
    (subscribe 100 s w (lit "a/b") 1).1 = 0x80 ∧
    (subscribe 100 s w (lit "a/b") 1).2.1.messageHandlers = s.messageHandlers ∧
    (subscribe 100 s w (lit "a/b") 1).2.1.isconnected = false := by
  obtain ⟨ct, sb, rb, ls, lr, ka, po, cs, pid, mh, da, ic, pb, il, im, iq, pr, iq2⟩ := s
  obtain ⟨net, snt, dlv⟩ := w
  simp only at h0 hic hct hnet
  subst h0
  subst hic
  subst hct
  subst hnet
  refine ⟨?_, ?_, ?_⟩ <;> rfl

/-- C5 witness: the theorem applied to the fresh connected client with a
broker that answers 0x80. -/
theorem C5_suback_rejection_witness :
    sInit.isconnected = true ∧
    ((subscribe 100 sInit { wInit with net := subackEvents 128 } (lit "a/b") 1).1 = 0x80 ∧
     (subscribe 100 sInit { wInit with net := subackEvents 128 } (lit "a/b") 1).2.1.messageHandlers
        = sInit.messageHandlers ∧
     (subscribe 100 sInit { wInit with net := subackEvents 128 } (lit "a/b") 1).2.1.isconnected
        = false) :=
  ⟨by decide,
   C5_suback_rejection_disconnects sInit { wInit with net := subackEvents 128 } 8 []
     (by decide) (by decide) (by decide) (by simp)⟩

/-- C5 counterexample: after the rejected subscribe is_connected is false,
not true as claimed — the client is disconnected by a broker rejection. -/
theorem C5_isconnected_after_rejection_cex :
    (subscribe 100 sInit { wInit with net := subackEvents 128 } (lit "a/b") 1).1 = 0x80 ∧
    ¬ (subscribe 100 sInit { wInit with net := subackEvents 128 } (lit "a/b") 1).2.1.isconnected
        = true := by
  decide

/-- C9 (amended): an inbound QoS-2 PUBLISH whose id is currently in the
qos2_inbound set is acknowledged with a PUBREC for that id but not delivered
to any handler, and the set is unchanged; so no id is delivered twice while
it stays in the set.  (Once a PUBREL removes the id, a new PUBLISH with the
same id is delivered again — see the counterexample.) -/
theorem C9_duplicate_qos2_not_redelivered (s : CState) (w : World) (u id : Nat)
    (rest : List NetEv)
    (h0 : s.keepAliveInterval = 0)
    (hdup : isQoS2msgidFree id s.incomingQoS2messages = false)
    (hnet : w.net = qos2PublishEvents id ++ rest) :
    (cycle 100 s w (u + 1)).2.2.1.delivered = w.delivered ∧
    (cycle 100 s w (u + 1)).2.2.1.sent = w.sent ++ [[80, 2, id / 256, id % 256]] ∧
    (cycle 100 s w (u + 1)).1 = PUBLISH ∧
    (cycle 100 s w (u + 1)).2.1.incomingQoS2messages = s.incomingQoS2messages := by
  obtain ⟨ct, sb, rb, ls, lr, ka, po, cs, pid, mh, da, ic, pb, il, im, iq, pr, iq2⟩ := s
  obtain ⟨net, snt, dlv⟩ := w
  simp only at h0 hdup hnet
  subst h0
  subst hnet
  have hcons : qos2PublishEvents id ++ rest
      = NetEv.bytes [52] :: NetEv.bytes [6]
        :: NetEv.bytes [0, 1, 116, id / 256, id % 256, 118] :: rest := rfl
  rw [hcons]
  have hrw : id / 256 * 256 + id % 256 = id := by omega
  simp [cycle, readPacket, netRead, decodePacket, decodePacketAux, encodeRemLen,
        encodeRemLenF, MQTTDeserialize_publish, parseRemLenAux, MQTTSerialize_ack,
        sendPacket, timerExpired, cycleFinish, cycleExit, keepalive, hrw, hdup,
        List.take_succ_cons,
        SUCCESS, FAILURE, BUFFER_OVERFLOW, CONNACK, PUBACK, SUBACK, PUBLISH,
        PUBREC, PUBREL, PUBCOMP, PINGRESP]

/-- C9 witness: the theorem applied to a client whose first inbound-QoS2
slot already holds id 42. -/
theorem C9_duplicate_qos2_witness :
    isQoS2msgidFree 42
        ({ sInit with incomingQoS2messages := [42, 0, 0, 0, 0, 0, 0, 0, 0, 0] }).incomingQoS2messages
      = false ∧
    ((cycle 100 { sInit with incomingQoS2messages := [42, 0, 0, 0, 0, 0, 0, 0, 0, 0] }
        { wInit with net := qos2PublishEvents 42 } (5 + 1)).2.2.1.delivered
      = wInit.delivered ∧
     (cycle 100 { sInit with incomingQoS2messages := [42, 0, 0, 0, 0, 0, 0, 0, 0, 0] }
        { wInit with net := qos2PublishEvents 42 } (5 + 1)).2.2.1.sent
      = wInit.sent ++ [[80, 2, 42 / 256, 42 % 256]] ∧
     (cycle 100 { sInit with incomingQoS2messages := [42, 0, 0, 0, 0, 0, 0, 0, 0, 0] }
        { wInit with net := qos2PublishEvents 42 } (5 + 1)).1 = PUBLISH ∧
     (cycle 100 { sInit with incomingQoS2messages := [42, 0, 0, 0, 0, 0, 0, 0, 0, 0] }
        { wInit with net := qos2PublishEvents 42 } (5 + 1)).2.1.incomingQoS2messages
      = ({ sInit with incomingQoS2messages := [42, 0, 0, 0, 0, 0, 0, 0, 0, 0] }).incomingQoS2messages) :=
  ⟨by decide,
   C9_duplicate_qos2_not_redelivered
     { sInit with incomingQoS2messages := [42, 0, 0, 0, 0, 0, 0, 0, 0, 0] }
     { wInit with net := qos2PublishEvents 42 } 5 42 []
     (by decide) (by decide) (by simp)⟩

/-- C9 counterexample: within one connected session (no DISCONNECT is ever
sent; is_connected stays true), the trace PUBLISH(42, QoS2), PUBREL(42),
PUBLISH(42, QoS2) makes the engine deliver packet id 42 to the default
handler twice — after the PUBREL releases the id, the claimed session-wide
at-most-once property fails. -/
theorem C9_redelivered_after_pubrel_cex :
    sInit.isconnected = true ∧
    c9Step3.2.2.1.delivered.map Delivery.msgid = [42, 42] ∧
    c9Step3.2.2.1.sent = [[80, 2, 0, 42], [112, 2, 0, 42], [80, 2, 0, 42]] ∧
    c9Step3.2.1.isconnected = true := by
  decide

/-- C3 (amended): a successful reconnect with an inflight PUBLISH
(pubrel_phase false) resends the stored bytes of pubbuf unchanged — the
original packet id, but the DUP flag still 0 exactly as publish serialized
it (the source copies pubbuf into sendbuf without touching the header).
For a QoS-1 inflight (first part) connect then awaits the PUBACK and
clears the inflight id when it matches.  For a QoS-2 inflight (second
part) the inner publish's QoS-2 wait is preprocessor-dead in the
QOS1-and-QOS2 compilation, so connect returns right after the resend
without consuming any further inbound packet: the inflight id stays set
and the inbound trace after the CONNACK is untouched.  Stated for the
stored publish of topic [120], payload [121]. -/
theorem C3_reconnect_resends_stored_publish :
    (∀ (s : CState) (w : World) (u id : Nat) (rest : List NetEv),
      s.isconnected = false → 0 < id →
      s.inflightMsgid = id → s.inflightQoS = 1 → s.pubrel = false →
      s.pubbuf = (MQTTSerialize_publish 100 0 1 false id [120] [121]).2 →
      s.inflightLen = 8 →
      s.command_timeout_ms = u + 1 + 1 + 1 + 1 →
      w.net = connackEvents 0 ++ ackEvents 64 id ++ rest →
      (connect 100 s w 0 false).1 = SUCCESS ∧
      (connect 100 s w 0 false).2.1.isconnected = true ∧
      (connect 100 s w 0 false).2.1.inflightMsgid = 0 ∧
      (connect 100 s w 0 false).2.2.sent
        = w.sent ++ [(MQTTSerialize_connect 100 0 false).2,
                     (MQTTSerialize_publish 100 0 1 false id [120] [121]).2] ∧
      (MQTTSerialize_publish 100 0 1 false id [120] [121]).2.headD 0 / 8 % 2 = 0) ∧
    (∀ (s : CState) (w : World) (u id : Nat) (rest : List NetEv),
      s.isconnected = false → 0 < id →
      s.inflightMsgid = id → s.inflightQoS = 2 → s.pubrel = false →
      s.pubbuf = (MQTTSerialize_publish 100 0 2 false id [120] [121]).2 →
      s.inflightLen = 8 →
      s.command_timeout_ms = u + 1 + 1 + 1 + 1 →
      w.net = connackEvents 0 ++ rest →
      (connect 100 s w 0 false).1 = SUCCESS ∧
      (connect 100 s w 0 false).2.1.isconnected = true ∧
      (connect 100 s w 0 false).2.1.inflightMsgid = id ∧
      (connect 100 s w 0 false).2.2.net = rest ∧
      (connect 100 s w 0 false).2.2.sent
        = w.sent ++ [(MQTTSerialize_connect 100 0 false).2,
                     (MQTTSerialize_publish 100 0 2 false id [120] [121]).2] ∧
      (MQTTSerialize_publish 100 0 2 false id [120] [121]).2.headD 0 / 8 % 2 = 0) := by
  constructor
  · intro s w u id rest hic hid him hq hpr hpb hlen hct hnet
    obtain ⟨ct, sb, rb, ls, lr, ka, po, cs, pid, mh, da, ic, pb, il, im, iq, pr, iq2⟩ := s
    obtain ⟨net, snt, dlv⟩ := w
    simp only at hic him hq hpr hpb hlen hct hnet
    subst hic
    have him' := him.symm
    subst him'
    subst hq
    subst hpr
    subst hpb
    subst hlen
    subst hct
    subst hnet
    have hcons : connackEvents 0 ++ ackEvents 64 id ++ rest
        = NetEv.bytes [32] :: NetEv.bytes [2] :: NetEv.bytes [0, 0]
          :: NetEv.bytes [64] :: NetEv.bytes [2]
          :: NetEv.bytes [id / 256, id % 256] :: rest := rfl
    rw [hcons]
    have hrw : id / 256 * 256 + id % 256 = id := by omega
    simp [connect, connectExit, MQTTSerialize_connect, MQTTSerialize_publish,
          MQTTSerialize_ack, sendPacket, timerExpired, waitfor, waitforAux,
          cycle, readPacket, netRead, decodePacket, decodePacketAux,
          encodeRemLen, encodeRemLenF, MQTTDeserialize_connack,
          MQTTDeserialize_ack, parseRemLenAux, publishInner, pubExit,
          cycleFinish, cycleExit, keepalive, hid, hrw, List.take_succ_cons,
          SUCCESS, FAILURE, BUFFER_OVERFLOW, CONNACK, PUBACK, SUBACK, PUBLISH,
          PUBREC, PUBREL, PUBCOMP, PINGRESP]
  · intro s w u id rest hic hid him hq hpr hpb hlen hct hnet
    obtain ⟨ct, sb, rb, ls, lr, ka, po, cs, pid, mh, da, ic, pb, il, im, iq, pr, iq2⟩ := s
    obtain ⟨net, snt, dlv⟩ := w
    simp only at hic him hq hpr hpb hlen hct hnet
    subst hic
    have him' := him.symm
    subst him'
    subst hq
    subst hpr
    subst hpb
    subst hlen
    subst hct
    subst hnet
    have hcons : connackEvents 0 ++ rest
        = NetEv.bytes [32] :: NetEv.bytes [2] :: NetEv.bytes [0, 0] :: rest := rfl
    rw [hcons]
    simp [connect, connectExit, MQTTSerialize_connect, MQTTSerialize_publish,
          MQTTSerialize_ack, sendPacket, timerExpired, waitfor, waitforAux,
          cycle, readPacket, netRead, decodePacket, decodePacketAux,
          encodeRemLen, encodeRemLenF, MQTTDeserialize_connack,
          MQTTDeserialize_ack, parseRemLenAux, publishInner, pubExit,
          cycleFinish, cycleExit, keepalive, hid, List.take_succ_cons,
          SUCCESS, FAILURE, BUFFER_OVERFLOW, CONNACK, PUBACK, SUBACK, PUBLISH,
          PUBREC, PUBREL, PUBCOMP, PINGRESP]

/-- C3 witness: the first part applied to the state left behind by the
failed QoS-1 publish of the c3AfterPublish scenario (id 1), reconnected
under a broker that accepts and then acknowledges id 1; the second part
applied to the stored QoS-2 publish of c3Qos2State (id 3), reconnected
under a broker that only accepts. -/
theorem C3_reconnect_witness :
    (c3AfterPublish.2.1.isconnected = false ∧
     c3AfterPublish.2.1.inflightMsgid = 1 ∧
     ((connect 100 c3AfterPublish.2.1
        { net := connackEvents 0 ++ ackEvents 64 1, sent := [], delivered := [] }
        0 false).1 = SUCCESS ∧
      (connect 100 c3AfterPublish.2.1
        { net := connackEvents 0 ++ ackEvents 64 1, sent := [], delivered := [] }
        0 false).2.1.isconnected = true ∧
      (connect 100 c3AfterPublish.2.1
        { net := connackEvents 0 ++ ackEvents 64 1, sent := [], delivered := [] }
        0 false).2.1.inflightMsgid = 0 ∧
      (connect 100 c3AfterPublish.2.1
        { net := connackEvents 0 ++ ackEvents 64 1, sent := [], delivered := [] }
        0 false).2.2.sent
        = ([] : List (List Nat)) ++ [(MQTTSerialize_connect 100 0 false).2,
                     (MQTTSerialize_publish 100 0 1 false 1 [120] [121]).2] ∧
      (MQTTSerialize_publish 100 0 1 false 1 [120] [121]).2.headD 0 / 8 % 2 = 0)) ∧
    (c3Qos2State.inflightQoS = 2 ∧
     c3Qos2State.pubrel = false ∧
     ((connect 100 c3Qos2State
        { net := connackEvents 0, sent := [], delivered := [] } 0 false).1 = SUCCESS ∧
      (connect 100 c3Qos2State
        { net := connackEvents 0, sent := [], delivered := [] } 0 false).2.1.isconnected
        = true ∧
      (connect 100 c3Qos2State
        { net := connackEvents 0, sent := [], delivered := [] } 0 false).2.1.inflightMsgid
        = 3 ∧
      (connect 100 c3Qos2State
        { net := connackEvents 0, sent := [], delivered := [] } 0 false).2.2.net
        = ([] : List NetEv) ∧
      (connect 100 c3Qos2State
        { net := connackEvents 0, sent := [], delivered := [] } 0 false).2.2.sent
        = ([] : List (List Nat)) ++ [(MQTTSerialize_connect 100 0 false).2,
                     (MQTTSerialize_publish 100 0 2 false 3 [120] [121]).2] ∧
      (MQTTSerialize_publish 100 0 2 false 3 [120] [121]).2.headD 0 / 8 % 2 = 0)) :=
  ⟨⟨by decide, by decide,
    C3_reconnect_resends_stored_publish.1 c3AfterPublish.2.1
      { net := connackEvents 0 ++ ackEvents 64 1, sent := [], delivered := [] }
      6 1 []
      (by decide) (by decide) (by decide) (by decide) (by decide) (by decide)
      (by decide) (by decide) (by simp)⟩,
   ⟨by decide, by decide,
    C3_reconnect_resends_stored_publish.2 c3Qos2State
      { net := connackEvents 0, sent := [], delivered := [] }
      6 3 []
      (by decide) (by decide) (by decide) (by decide) (by decide) (by decide)
      (by decide) (by decide) (by simp)⟩⟩

/-- C3 counterexample: in the concrete retry scenario — QoS-1 publish in a
non-clean session, transport failing before the PUBACK, then a successful
reconnect — the replayed PUBLISH packet on the wire carries DUP = 0, not
DUP = 1 as claimed: the header byte of the second sent packet is 50, whose
DUP bit (bit 3) is 0. -/
theorem C3_dup_flag_not_set_cex :
    c3AfterPublish.2.1.inflightMsgid = 1 ∧
    c3AfterPublish.2.1.pubrel = false ∧
    c3Reconnect.1 = SUCCESS ∧
    c3Reconnect.2.2.sent.map (fun p => p.headD 0)
      = [16, 50] ∧
    ¬ (c3Reconnect.2.2.sent.getD 1 []).headD 0 / 8 % 2 = 1 := by
  decide

end MQTTC
